import Mathlib

/-!
# Verification of the Vibe-Coder backend routes

A shallow embedding of `src/server/index.js` (an Express service wrapping an
external text-generation and speech-synthesis provider), together with proofs
about its externally observable contract: request validation, the error
taxonomy of the chat route, audio-file naming, audio serving, and the
age-based cleanup route.

External calls (the provider, the clock, the filesystem) are modelled by an
explicit environment record carrying their outcomes; thrown JS errors are
modelled by the only data the route's `catch` block inspects, the `code`
property and the message.
-/

namespace VibeCoder

/-- A JavaScript value as it can appear in a request-body field.  The chat
route only ever branches on truthiness, string-ness (`.trim()` / `.length`)
and the raw value, so this carrier is enough. -/
inductive JSValue where
  | undefined
  | null
  | str (s : String)
  | num (n : Int)
  | boolean (b : Bool)
  | obj
deriving DecidableEq, Repr

/-- JS truthiness of a `JSValue` (`!v` is its negation). -/
def truthy : JSValue → Bool
  | .undefined => false
  | .null => false
  | .str s => s != ""
  | .num n => n != 0
  | .boolean b => b
  | .obj => true

/-- A thrown JS error, reduced to what the chat route's `catch` block
inspects: the optional `code` property and the `message`. -/
structure JSError where
  code : Option String
  message : String
deriving DecidableEq, Repr

/-- The `TypeError` raised by `prompt.trim()` when `prompt` is not a string:
it carries no `code` property. -/
def trimTypeError : JSError :=
  ⟨none, "prompt.trim is not a function"⟩

/-- The characters `String.prototype.trim` removes (ECMA-262 *WhiteSpace*
and *LineTerminator*: tab, LF, VT, FF, CR, space, NBSP, Ogham space,
the U+2000 range, LS, PS, NNBSP, MMSP, ideographic space, ZWNBSP). -/
def jsWhitespaceChars : List Char :=
  ['\t', '\n', '\u000B', '\u000C', '\r', ' ', '\u00A0', '\u1680',
   '\u2000', '\u2001', '\u2002', '\u2003', '\u2004', '\u2005', '\u2006',
   '\u2007', '\u2008', '\u2009', '\u200A', '\u2028', '\u2029', '\u202F',
   '\u205F', '\u3000', '\uFEFF']

/-- Whether `String.prototype.trim` removes this character. -/
def jsIsWhitespace (c : Char) : Bool :=
  jsWhitespaceChars.contains c

/-- JS `s.trim()`: strips leading and trailing whitespace. -/
def jsTrim (s : String) : String :=
  ⟨(((s.data.dropWhile jsIsWhitespace).reverse.dropWhile jsIsWhitespace).reverse)⟩

/-- The fixed default personality string literal of the source
(`src/server/index.js`). -/
def defaultPersonality : String :=
  "You are a helpful, friendly, and conversational AI assistant. " ++
  "Provide clear, concise, and engaging responses. " ++
  "Keep your responses conversational and natural, as if speaking to a friend."

/-- `const defaultSystemMessage = systemMessage || "You are a helpful...";`
JS `||` returns its left operand when truthy, else its right operand. -/
def defaultSystemMessage (systemMessage : JSValue) : JSValue :=
  if truthy systemMessage then systemMessage else .str defaultPersonality

/-- Base-10 digits of `n`, least significant first, with explicit fuel so
that the definition is structurally recursive (`decimalDigits fuel n`
equals `Nat.digits 10 n` whenever `n ≤ fuel`). -/
def decimalDigits (fuel n : Nat) : List Nat :=
  match fuel with
  | 0 => []
  | fuel + 1 => if n = 0 then [] else n % 10 :: decimalDigits fuel (n / 10)

/-- Decimal rendering of a natural number, as the template literal
`` `response_${Date.now()}.mp3` `` stringifies the clock value: base-10
digits, most significant first, `"0"` for zero. -/
def decimalRepr (n : Nat) : String :=
  if n = 0 then "0" else ⟨((decimalDigits n n).map Nat.digitChar).reverse⟩

/-- ``const audioFileName = `response_${Date.now()}.mp3`;`` -/
def audioFileName (now : Nat) : String :=
  "response_" ++ decimalRepr now ++ ".mp3"

/-- Outcomes of everything outside the route handler's own logic during one
chat request: the text-generation call, the speech-synthesis call, the
`writeFileSync` call, the `Date.now()` reading and `NODE_ENV`. -/
structure ChatEnv where
  chatResult : Except JSError String
  speechResult : Except JSError (List Nat)
  writeResult : Except JSError Unit
  now : Nat
  nodeEnv : String

/-- The JSON body and status the chat route sends; absent fields are
`none` (JSON `undefined` fields are dropped on serialisation). -/
structure ChatResponse where
  status : Nat
  error : Option String := none
  type : Option String := none
  details : Option String := none
  success : Option Bool := none
  textResponse : Option String := none
  audioUrl : Option String := none
  audioFileName : Option String := none
  promptLength : Option Nat := none
  responseLength : Option Nat := none
deriving DecidableEq, Repr

/-- The externally visible side effects of one chat request: which provider
calls were made and with what payload, and which audio files were written. -/
structure ChatEffects where
  textGenCalled : Bool
  systemMessageSent : Option JSValue
  promptSent : Option JSValue
  speechCalled : Bool
  speechInput : Option String
  filesWritten : List String
deriving DecidableEq, Repr

/-- No external call made, no file written. -/
def noEffects : ChatEffects := ⟨false, none, none, false, none, []⟩

/-- The 400 body of the prompt validation branch. -/
def validationFailure : ChatResponse :=
  { status := 400, error := some "Prompt is required and cannot be empty" }

/-- The chat route's `catch` block: `insufficient_quota` → 429,
`invalid_api_key` → 401, anything else → 500 with detail only when
`NODE_ENV === 'development'`. -/
def chatCatch (e : JSError) (nodeEnv : String) : ChatResponse :=
  if e.code == some "insufficient_quota" then
    { status := 429,
      error := some "OpenAI API quota exceeded. Please check your API limits.",
      type := some "quota_error" }
  else if e.code == some "invalid_api_key" then
    { status := 401,
      error := some "Invalid OpenAI API key. Please check your configuration.",
      type := some "auth_error" }
  else
    { status := 500,
      error := some "Internal server error while processing your request",
      type := some "server_error",
      details := if nodeEnv == "development" then some e.message else none }

/-- `app.post('/api/chat')`: validation, the two provider calls, the file
write and the success body, with every thrown error routed to `chatCatch`. -/
def chatHandler (prompt systemMessage : JSValue) (env : ChatEnv) :
    ChatResponse × ChatEffects :=
  if !truthy prompt then (validationFailure, noEffects)
  else
    match prompt with
    | .str s =>
      if jsTrim s == "" then (validationFailure, noEffects)
      else
        let sysMsg := defaultSystemMessage systemMessage
        let eff1 : ChatEffects := ⟨true, some sysMsg, some prompt, false, none, []⟩
        match env.chatResult with
        | .error e => (chatCatch e env.nodeEnv, eff1)
        | .ok textResponse =>
          let eff2 : ChatEffects :=
            ⟨true, some sysMsg, some prompt, true, some textResponse, []⟩
          match env.speechResult with
          | .error e => (chatCatch e env.nodeEnv, eff2)
          | .ok _bytes =>
            let name := audioFileName env.now
            match env.writeResult with
            | .error e => (chatCatch e env.nodeEnv, eff2)
            | .ok _ =>
              ({ status := 200,
                 success := some true,
                 textResponse := some textResponse,
                 audioUrl := some ("/audio/" ++ name),
                 audioFileName := some name,
                 promptLength := some s.length,
                 responseLength := some textResponse.length },
               ⟨true, some sysMsg, some prompt, true, some textResponse, [name]⟩)
    | _ => (chatCatch trimTypeError env.nodeEnv, noEffects)

/-- The audio directory: file names with their byte contents. -/
abbrev AudioDir := List (String × List Nat)

/-- `fs.existsSync` / the read of `path.join(audioDir, filename)`. -/
def lookupFile (dir : AudioDir) (filename : String) : Option (List Nat) :=
  match dir.find? (fun e => e.1 == filename) with
  | some e => some e.2
  | none => none

/-- What `GET /audio/:filename` sends: status, headers and body. -/
structure AudioResponse where
  status : Nat
  error : Option String := none
  contentType : Option String := none
  acceptRanges : Option String := none
  body : Option (List Nat) := none
deriving DecidableEq, Repr

/-- `app.get('/audio/:filename')`: 404 when the file is absent, else the
bytes with `Content-Type: audio/mpeg` and `Accept-Ranges: bytes`. -/
def serveAudio (dir : AudioDir) (filename : String) : AudioResponse :=
  match lookupFile dir filename with
  | none => { status := 404, error := some "Audio file not found" }
  | some bytes =>
    { status := 200, contentType := some "audio/mpeg",
      acceptRanges := some "bytes", body := some bytes }

/-- A directory entry as the cleanup route sees it: name, last-modified
time in epoch milliseconds, and whether its `statSync` / `unlinkSync`
call throws. -/
structure FileEntry where
  name : String
  mtime : Int
  statFails : Bool := false
  unlinkFails : Bool := false
deriving DecidableEq, Repr

/-- `const oneHour = 60 * 60 * 1000;` -/
def oneHour : Int := 60 * 60 * 1000

/-- The deletion test of the cleanup loop:
`now - stats.mtime.getTime() > oneHour`. -/
def isStale (now : Int) (f : FileEntry) : Bool :=
  decide (now - f.mtime > oneHour)

/-- The `files.forEach` loop: returns the surviving directory together with
`some deletedCount` on success, or `none` when a `statSync`/`unlinkSync`
call threw — the exception aborts the loop, and files already unlinked
stay deleted. -/
def cleanupScan (now : Int) : List FileEntry → List FileEntry × Option Nat
  | [] => ([], some 0)
  | f :: rest =>
    if f.statFails then (f :: rest, none)
    else if isStale now f then
      if f.unlinkFails then (f :: rest, none)
      else
        let (surv, r) := cleanupScan now rest
        (surv, r.map (· + 1))
    else
      let (surv, r) := cleanupScan now rest
      (f :: surv, r)

/-- The JSON body and status `DELETE /api/cleanup` sends. -/
structure CleanupResponse where
  status : Nat
  message : Option String := none
  deletedCount : Option Nat := none
  error : Option String := none
deriving DecidableEq, Repr

/-- `app.delete('/api/cleanup')`: runs the scan, then either the success
body with the count or the 500 catch body; also returns the directory as
it is left on disk. -/
def cleanupRoute (dir : List FileEntry) (now : Int) :
    CleanupResponse × List FileEntry :=
  match cleanupScan now dir with
  | (surv, some count) =>
    ({ status := 200,
       message := some ("Cleaned up " ++ decimalRepr count ++ " old audio files"),
       deletedCount := some count }, surv)
  | (surv, none) =>
    ({ status := 500, error := some "Error cleaning up files" }, surv)

/-- The body of the catch-all 404 handler. -/
structure NotFoundResponse where
  status : Nat
  error : String
  availableEndpoints : List String
deriving DecidableEq, Repr

/-- `app.use('*')`: the unmatched-route handler with its route list. -/
def notFoundHandler : NotFoundResponse :=
  ⟨404, "Endpoint not found",
   ["GET /api/health", "POST /api/chat", "GET /audio/:filename",
    "DELETE /api/cleanup", "GET /api/config"]⟩

/-! ## Supporting lemmas -/

/-- With enough fuel, `decimalDigits` agrees with `Nat.digits 10`. -/
lemma decimalDigits_eq_digits : ∀ fuel n, n ≤ fuel →
    decimalDigits fuel n = Nat.digits 10 n := by
  intro fuel
  induction fuel with
  | zero =>
    intro n hn
    interval_cases n
    simp [decimalDigits]
  | succ fuel ih =>
    intro n hn
    by_cases h0 : n = 0
    · simp [decimalDigits, h0]
    · rw [decimalDigits, if_neg h0,
        Nat.digits_def' (by norm_num : (1:ℕ) < 10) (Nat.pos_of_ne_zero h0), ih]
      have := Nat.div_lt_self (Nat.pos_of_ne_zero h0) (by norm_num : (1:ℕ) < 10)
      omega

/-- `Nat.digitChar` is injective below 10. -/
lemma digitChar_lt_inj : ∀ a < 10, ∀ b < 10,
    Nat.digitChar a = Nat.digitChar b → a = b := by decide

/-- `Nat.digitChar` renders every digit below 10 as a digit character. -/
lemma digitChar_isDigit : ∀ d < 10, (Nat.digitChar d).isDigit = true := by decide

/-- Mapping `Nat.digitChar` over lists of digits below 10 is injective. -/
lemma map_digitChar_inj : ∀ l₁ l₂ : List Nat, (∀ x ∈ l₁, x < 10) →
    (∀ x ∈ l₂, x < 10) → l₁.map Nat.digitChar = l₂.map Nat.digitChar → l₁ = l₂ := by
  intro l₁
  induction l₁ with
  | nil =>
    intro l₂ _ _ h
    cases l₂ with
    | nil => rfl
    | cons b u => simp at h
  | cons a t ih =>
    intro l₂ h₁ h₂ h
    cases l₂ with
    | nil => simp at h
    | cons b u =>
      simp only [List.map_cons, List.cons.injEq] at h
      have hab : a = b :=
        digitChar_lt_inj a (h₁ a (List.mem_cons_self a t))
          b (h₂ b (List.mem_cons_self b u)) h.1
      subst hab
      rw [ih u (fun x hx => h₁ x (List.mem_cons_of_mem _ hx))
        (fun x hx => h₂ x (List.mem_cons_of_mem _ hx)) h.2]

/-- A nonzero number's decimal rendering is never the data of `"0"`. -/
lemma decimalRepr_data_ne_zero (n : Nat) (hn : n ≠ 0) :
    ((decimalDigits n n).map Nat.digitChar).reverse ≠ ['0'] := by
  intro h
  rw [decimalDigits_eq_digits n n le_rfl] at h
  have h' : (Nat.digits 10 n).map Nat.digitChar = ['0'] := by
    have := congrArg List.reverse h
    simpa using this
  rcases hd : Nat.digits 10 n with _ | ⟨d, ds⟩
  · rw [hd] at h'
    simp at h'
  · rw [hd] at h'
    simp only [List.map_cons, List.cons.injEq, List.map_eq_nil_iff] at h'
    have hdlt : d < 10 :=
      Nat.digits_lt_base (by norm_num) (hd ▸ List.mem_cons_self d ds)
    have hd0 : d = 0 := digitChar_lt_inj d hdlt 0 (by norm_num) h'.1
    have hofd := Nat.ofDigits_digits 10 n
    rw [hd, hd0, h'.2] at hofd
    simp [Nat.ofDigits] at hofd
    exact hn hofd.symm

/-- The decimal rendering determines the number: `decimalRepr` is injective
at the level of character data. -/
lemma decimalRepr_data_inj (m n : Nat)
    (h : (decimalRepr m).data = (decimalRepr n).data) : m = n := by
  by_cases hm : m = 0 <;> by_cases hn : n = 0
  · rw [hm, hn]
  · exfalso
    rw [decimalRepr, decimalRepr, if_pos hm, if_neg hn] at h
    exact decimalRepr_data_ne_zero n hn h.symm
  · exfalso
    rw [decimalRepr, decimalRepr, if_neg hm, if_pos hn] at h
    exact decimalRepr_data_ne_zero m hm h
  · rw [decimalRepr, decimalRepr, if_neg hm, if_neg hn] at h
    have h' := List.reverse_injective h
    have hmap := map_digitChar_inj (decimalDigits m m) (decimalDigits n n)
      (by
        rw [decimalDigits_eq_digits m m le_rfl]
        exact fun x hx => Nat.digits_lt_base (by norm_num) hx)
      (by
        rw [decimalDigits_eq_digits n n le_rfl]
        exact fun x hx => Nat.digits_lt_base (by norm_num) hx)
      h'
    rw [decimalDigits_eq_digits m m le_rfl, decimalDigits_eq_digits n n le_rfl] at hmap
    exact Nat.digits_inj_iff.mp hmap

/-- Every character of `decimalRepr n` is a decimal digit. -/
lemma decimalRepr_chars_digits (n : Nat) :
    ∀ c ∈ (decimalRepr n).data, c.isDigit = true := by
  by_cases hn : n = 0
  · rw [hn]
    intro c hc
    have : c = '0' := by simpa [decimalRepr] using hc
    rw [this]
    rfl
  · rw [decimalRepr, if_neg hn]
    intro c hc
    have hc' : c ∈ (decimalDigits n n).map Nat.digitChar := List.mem_reverse.mp hc
    obtain ⟨d, hd, rfl⟩ := List.mem_map.mp hc'
    rw [decimalDigits_eq_digits n n le_rfl] at hd
    exact digitChar_isDigit d (Nat.digits_lt_base (by norm_num) hd)

/-- Different clock readings give different audio file names. -/
lemma audioFileName_inj (t₁ t₂ : Nat) (h : audioFileName t₁ = audioFileName t₂) :
    t₁ = t₂ := by
  have hdata := congrArg String.data h
  have h1 : ("response_" : String).data ++ ((decimalRepr t₁).data ++ (".mp3" : String).data)
      = ("response_" : String).data ++ ((decimalRepr t₂).data ++ (".mp3" : String).data) := by
    simpa [audioFileName] using hdata
  have h2 := List.append_cancel_left h1
  have h3 := List.append_cancel_right h2
  exact decimalRepr_data_inj t₁ t₂ h3

/-- When no filesystem call throws, the scan deletes exactly the stale
entries and counts them. -/
lemma cleanupScan_no_failure (now : Int) : ∀ dir : List FileEntry,
    (∀ f ∈ dir, f.statFails = false ∧ f.unlinkFails = false) →
    cleanupScan now dir =
      (dir.filter (fun f => !isStale now f),
       some (dir.filter (fun f => isStale now f)).length) := by
  intro dir
  induction dir with
  | nil => intro _; rfl
  | cons f rest ih =>
    intro hok
    have hf := hok f (List.mem_cons_self f rest)
    have hrest := ih (fun g hg => hok g (List.mem_cons_of_mem _ hg))
    by_cases hst : isStale now f = true
    · rw [cleanupScan, if_neg (by simp [hf.1]), if_pos hst, if_neg (by simp [hf.2]),
        hrest]
      simp [List.filter_cons, hst]
    · rw [cleanupScan, if_neg (by simp [hf.1]),
        if_neg (by simp at hst; simp [hst]), hrest]
      simp only [Bool.not_eq_true] at hst
      simp [List.filter_cons, hst]

/-- When the scan reaches an entry whose `statSync` or `unlinkSync` throws,
it returns no count, every stale entry before the failing one stays
deleted, and the failing entry with everything after it is untouched. -/
lemma cleanupScan_failure (now : Int) (bad : FileEntry) (post : List FileEntry)
    (hbad : bad.statFails = true ∨ (isStale now bad = true ∧ bad.unlinkFails = true)) :
    ∀ pre : List FileEntry,
    (∀ f ∈ pre, f.statFails = false ∧ f.unlinkFails = false) →
    cleanupScan now (pre ++ bad :: post) =
      (pre.filter (fun f => !isStale now f) ++ bad :: post, none) := by
  intro pre
  induction pre with
  | nil =>
    intro _
    rcases hbad with hstat | ⟨hstale, hunlink⟩
    · rw [List.nil_append, cleanupScan, if_pos hstat]
      rfl
    · rw [List.nil_append, cleanupScan]
      rcases hs : bad.statFails with _ | _
      · rw [if_neg (by simp), if_pos hstale, if_pos hunlink]
        rfl
      · rw [if_pos rfl]
        rfl
  | cons f rest ih =>
    intro hok
    have hf := hok f (List.mem_cons_self f rest)
    have hrest := ih (fun g hg => hok g (List.mem_cons_of_mem _ hg))
    by_cases hst : isStale now f = true
    · rw [List.cons_append, cleanupScan, if_neg (by simp [hf.1]), if_pos hst,
        if_neg (by simp [hf.2]), hrest]
      simp [List.filter_cons, hst]
    · rw [List.cons_append, cleanupScan, if_neg (by simp [hf.1]),
        if_neg (by simp at hst; simp [hst]), hrest]
      simp only [Bool.not_eq_true] at hst
      simp [List.filter_cons, hst]

/-- Trimming the empty string gives the empty string. -/
lemma jsTrim_empty : jsTrim "" = "" := rfl

/-- On a valid string prompt, the system message handed to the
text-generation call is `systemMessage || default`, whatever the provider
and filesystem outcomes are. -/
lemma chatHandler_sysMsg (s : String) (sm : JSValue) (env : ChatEnv)
    (h : jsTrim s ≠ "") :
    (chatHandler (.str s) sm env).2.systemMessageSent
      = some (defaultSystemMessage sm) := by
  have hs : s ≠ "" := fun e => h (by rw [e]; rfl)
  obtain ⟨cr, sr, wr, nw, ne⟩ := env
  cases cr <;> cases sr <;> cases wr <;>
    simp [chatHandler, truthy, bne_iff_ne, hs, h]

/-- The success path of the chat route, fully evaluated. -/
lemma chatHandler_success (s : String) (sm : JSValue) (env : ChatEnv)
    (h : jsTrim s ≠ "") (text : String) (hc : env.chatResult = .ok text)
    (bytes : List Nat) (hsp : env.speechResult = .ok bytes)
    (hw : env.writeResult = .ok ()) :
    chatHandler (.str s) sm env =
      ({ status := 200, success := some true, textResponse := some text,
         audioUrl := some ("/audio/" ++ audioFileName env.now),
         audioFileName := some (audioFileName env.now),
         promptLength := some s.length, responseLength := some text.length },
       ⟨true, some (defaultSystemMessage sm), some (.str s), true, some text,
        [audioFileName env.now]⟩) := by
  have hs : s ≠ "" := fun e => h (by rw [e]; rfl)
  obtain ⟨cr, sr, wr, nw, ne⟩ := env
  simp only at hc hsp hw
  subst hc hsp hw
  simp [chatHandler, truthy, bne_iff_ne, hs, h]

/-- The validation branch: an absent, empty or whitespace-only prompt is
rejected before anything else happens. -/
lemma chatHandler_blank (p sm : JSValue) (env : ChatEnv)
    (h : p = .undefined ∨ p = .null ∨ ∃ s, p = .str s ∧ jsTrim s = "") :
    chatHandler p sm env = (validationFailure, noEffects) := by
  rcases h with rfl | rfl | ⟨s, rfl, htrim⟩
  · simp [chatHandler, truthy]
  · simp [chatHandler, truthy]
  · by_cases hs : s = ""
    · subst hs
      simp [chatHandler, truthy]
    · simp [chatHandler, truthy, bne_iff_ne, hs, htrim]

/-- A truthy non-string prompt makes `prompt.trim()` throw, landing in the
catch block with a code-less `TypeError`. -/
lemma chatHandler_nonstring (p sm : JSValue) (env : ChatEnv)
    (ht : truthy p = true) (hns : ∀ s, p ≠ .str s) :
    chatHandler p sm env = (chatCatch trimTypeError env.nodeEnv, noEffects) := by
  cases p with
  | undefined => simp [truthy] at ht
  | null => simp [truthy] at ht
  | str s => exact absurd rfl (hns s)
  | num n => simp [chatHandler, ht]
  | boolean b => simp [chatHandler, ht]
  | obj => simp [chatHandler, ht]

/-- The catch block on an error that is neither the quota nor the auth
error: a 500 with the generic message, detail only in development. -/
lemma chatCatch_other (e : JSError) (nodeEnv : String)
    (h1 : e.code ≠ some "insufficient_quota")
    (h2 : e.code ≠ some "invalid_api_key") :
    chatCatch e nodeEnv =
      { status := 500,
        error := some "Internal server error while processing your request",
        type := some "server_error",
        details := if nodeEnv == "development" then some e.message else none } := by
  rw [chatCatch, if_neg (by simpa using h1), if_neg (by simpa using h2)]

/-- A failing `writeFileSync` after both provider calls succeed lands in the
catch block with the thrown error. -/
lemma chatHandler_writeError (s : String) (sm : JSValue) (env : ChatEnv)
    (h : jsTrim s ≠ "") (text : String) (hc : env.chatResult = .ok text)
    (bytes : List Nat) (hsp : env.speechResult = .ok bytes)
    (e : JSError) (hw : env.writeResult = .error e) :
    (chatHandler (.str s) sm env).1 = chatCatch e env.nodeEnv := by
  have hs : s ≠ "" := fun hh => h (by rw [hh]; rfl)
  obtain ⟨cr, sr, wr, nw, ne⟩ := env
  simp only at hc hsp hw
  subst hc hsp hw
  simp [chatHandler, truthy, bne_iff_ne, hs, h]

/-! ## Claims -/

/-- C1: a chat request whose prompt is absent, empty, or whitespace-only
after trimming gets a 400 with body
`{"error":"Prompt is required and cannot be empty"}`, and no provider call
is made and no audio file is written. -/
theorem chat_blank_prompt_rejected (p sm : JSValue) (env : ChatEnv)
    (h : p = .undefined ∨ p = .null ∨ ∃ s, p = .str s ∧ jsTrim s = "") :
    (chatHandler p sm env).1 = validationFailure
    ∧ validationFailure.status = 400
    ∧ validationFailure.error = some "Prompt is required and cannot be empty"
    ∧ (chatHandler p sm env).2 = noEffects
    ∧ noEffects.textGenCalled = false
    ∧ noEffects.speechCalled = false
    ∧ noEffects.filesWritten = [] := by
  rw [chatHandler_blank p sm env h]
  exact ⟨rfl, rfl, rfl, rfl, rfl, rfl, rfl⟩

/-- Witness for C1 at the spec's own example, `{"prompt":"   "}`. -/
theorem chat_blank_prompt_rejected_witness :
    (chatHandler (.str "   ") .undefined
        ⟨.ok "hi", .ok [1], .ok (), 5, "test"⟩).1 = validationFailure
    ∧ (chatHandler (.str "   ") .undefined
        ⟨.ok "hi", .ok [1], .ok (), 5, "test"⟩).2 = noEffects := by
  have h := chat_blank_prompt_rejected (.str "   ") .undefined
    ⟨.ok "hi", .ok [1], .ok (), 5, "test"⟩
    (Or.inr (Or.inr ⟨"   ", rfl, by decide⟩))
  exact ⟨h.1, h.2.2.2.1⟩

/-- C2 counterexample: the route never trims `systemMessage`.  A
whitespace-only system message is truthy, so it is sent verbatim instead of
the default, and a padded system message is sent untrimmed. -/
theorem chat_systemMessage_not_trimmed_cex :
    jsTrim "   " = ""
    ∧ (chatHandler (.str "hello") (.str "   ")
        ⟨.ok "ok", .ok [1], .ok (), 7, "test"⟩).2.systemMessageSent
      = some (.str "   ")
    ∧ JSValue.str "   " ≠ .str defaultPersonality
    ∧ jsTrim "  custom  " = "custom"
    ∧ (chatHandler (.str "hello") (.str "  custom  ")
        ⟨.ok "ok", .ok [1], .ok (), 7, "test"⟩).2.systemMessageSent
      = some (.str "  custom  ")
    ∧ JSValue.str "  custom  " ≠ .str "custom" := by decide

/-- C2 amended: the raw, untrimmed `systemMessage` is sent whenever it is
truthy (any non-empty string, whitespace-only included); only an absent,
`null` or empty-string system message is replaced by the fixed default. -/
theorem chat_systemMessage_raw_or_default (s : String) (sm : JSValue)
    (env : ChatEnv) (h : jsTrim s ≠ "") :
    (chatHandler (.str s) sm env).2.systemMessageSent
      = some (defaultSystemMessage sm)
    ∧ (∀ t : String, t ≠ "" → defaultSystemMessage (.str t) = .str t)
    ∧ defaultSystemMessage (.str "") = .str defaultPersonality
    ∧ defaultSystemMessage .undefined = .str defaultPersonality
    ∧ defaultSystemMessage .null = .str defaultPersonality := by
  refine ⟨chatHandler_sysMsg s sm env h, ?_, by simp [defaultSystemMessage, truthy],
    by simp [defaultSystemMessage, truthy], by simp [defaultSystemMessage, truthy]⟩
  intro t ht
  simp [defaultSystemMessage, truthy, bne_iff_ne, ht]

/-- Witness for C2's amended statement: a non-empty system message is used
verbatim. -/
theorem chat_systemMessage_raw_or_default_witness :
    (chatHandler (.str "hi") (.str "Be a pirate.")
        ⟨.ok "y", .ok [], .ok (), 3, "test"⟩).2.systemMessageSent
      = some (.str "Be a pirate.") := by
  have h := chat_systemMessage_raw_or_default "hi" (.str "Be a pirate.")
    ⟨.ok "y", .ok [], .ok (), 3, "test"⟩ (by decide)
  rw [h.1, h.2.1 "Be a pirate." (by decide)]

/-- C7: with no system message in the request, the fixed default
personality string is the one sent to the text-generation provider. -/
theorem chat_no_systemMessage_default (s : String) (env : ChatEnv)
    (h : jsTrim s ≠ "") :
    (chatHandler (.str s) .undefined env).2.systemMessageSent
      = some (.str defaultPersonality) := by
  rw [chatHandler_sysMsg s .undefined env h]
  rfl

/-- Witness for C7. -/
theorem chat_no_systemMessage_default_witness :
    (chatHandler (.str "Say hello") .undefined
        ⟨.ok "hi", .ok [1], .ok (), 4, "test"⟩).2.systemMessageSent
      = some (.str defaultPersonality) :=
  chat_no_systemMessage_default "Say hello"
    ⟨.ok "hi", .ok [1], .ok (), 4, "test"⟩ (by decide)

/-- C9: a truthy non-string prompt is not caught by validation; the
`trim()` call throws and the request ends as a 500 `server_error`, not a
400. -/
theorem chat_nonstring_prompt_server_error (p sm : JSValue) (env : ChatEnv)
    (ht : truthy p = true) (hns : ∀ s, p ≠ .str s) :
    (chatHandler p sm env).1.status = 500
    ∧ (chatHandler p sm env).1.type = some "server_error"
    ∧ (chatHandler p sm env).1.status ≠ 400
    ∧ (chatHandler p sm env).2 = noEffects := by
  rw [chatHandler_nonstring p sm env ht hns,
    chatCatch_other trimTypeError env.nodeEnv (by decide) (by decide)]
  exact ⟨rfl, rfl, by simp, rfl⟩

/-- Witness for C9 at the numeric prompt `5`. -/
theorem chat_nonstring_prompt_server_error_witness :
    (chatHandler (.num 5) .undefined
        ⟨.ok "hi", .ok [1], .ok (), 4, "production"⟩).1.status = 500
    ∧ (chatHandler (.num 5) .undefined
        ⟨.ok "hi", .ok [1], .ok (), 4, "production"⟩).1.type
      = some "server_error" := by
  have h := chat_nonstring_prompt_server_error (.num 5) .undefined
    ⟨.ok "hi", .ok [1], .ok (), 4, "production"⟩ (by decide)
    (fun s hh => JSValue.noConfusion hh)
  exact ⟨h.1, h.2.1⟩

/-- C3: when no filesystem call throws, cleanup responds 200, deletes
exactly the files whose age exceeds one hour, reports their number, reports
0 when every file is fresh, and when exactly one file is stale it reports 1
and removes that file and only it. -/
theorem cleanup_deletes_exactly_stale (dir : List FileEntry) (now : Int)
    (hok : ∀ f ∈ dir, f.statFails = false ∧ f.unlinkFails = false) :
    (cleanupRoute dir now).1.status = 200
    ∧ (cleanupRoute dir now).1.deletedCount
        = some (dir.filter (fun f => isStale now f)).length
    ∧ (cleanupRoute dir now).2 = dir.filter (fun f => !isStale now f)
    ∧ ((∀ f ∈ dir, isStale now f = false) →
        (cleanupRoute dir now).1.deletedCount = some 0)
    ∧ (∀ g : FileEntry, dir.filter (fun f => isStale now f) = [g] →
        (cleanupRoute dir now).1.deletedCount = some 1
        ∧ g ∉ (cleanupRoute dir now).2
        ∧ ∀ f ∈ dir, f ≠ g → f ∈ (cleanupRoute dir now).2) := by
  have hscan := cleanupScan_no_failure now dir hok
  have hroute : cleanupRoute dir now
      = ({ status := 200,
           message := some ("Cleaned up "
             ++ decimalRepr (dir.filter (fun f => isStale now f)).length
             ++ " old audio files"),
           deletedCount := some (dir.filter (fun f => isStale now f)).length },
         dir.filter (fun f => !isStale now f)) := by
    unfold cleanupRoute
    rw [hscan]
  refine ⟨by rw [hroute], by rw [hroute], by rw [hroute], ?_, ?_⟩
  · intro hfresh
    have hnil : dir.filter (fun f => isStale now f) = [] :=
      List.filter_eq_nil_iff.mpr (by simpa using hfresh)
    rw [hroute]
    simp [hnil]
  · intro g hg
    have hgstale : isStale now g = true :=
      (List.mem_filter.mp (hg ▸ List.mem_cons_self g [])).2
    refine ⟨by rw [hroute]; simp [hg], ?_, ?_⟩
    · intro hmem
      rw [hroute] at hmem
      have := (List.mem_filter.mp hmem).2
      rw [hgstale] at this
      exact Bool.noConfusion this
    · intro f hf hfg
      rw [hroute]
      refine List.mem_filter.mpr ⟨hf, ?_⟩
      by_cases hfs : isStale now f = true
      · exact absurd (by
          have : f ∈ dir.filter (fun f => isStale now f) :=
            List.mem_filter.mpr ⟨hf, hfs⟩
          rw [hg] at this
          simpa using this) hfg
      · simp [hfs]

/-- Witness for C3: one stale and one fresh file; exactly the stale one
goes, count 1. -/
theorem cleanup_deletes_exactly_stale_witness :
    (cleanupRoute [⟨"old.mp3", 0, false, false⟩, ⟨"new.mp3", 7000000, false, false⟩]
        7200001).1.status = 200
    ∧ (cleanupRoute [⟨"old.mp3", 0, false, false⟩, ⟨"new.mp3", 7000000, false, false⟩]
        7200001).1.deletedCount = some 1
    ∧ (cleanupRoute [⟨"old.mp3", 0, false, false⟩, ⟨"new.mp3", 7000000, false, false⟩]
        7200001).2 = [⟨"new.mp3", 7000000, false, false⟩] := by
  have h := cleanup_deletes_exactly_stale
    [⟨"old.mp3", 0, false, false⟩, ⟨"new.mp3", 7000000, false, false⟩] 7200001
    (by decide)
  refine ⟨h.1, (h.2.2.2.2 ⟨"old.mp3", 0, false, false⟩ (by decide)).1, ?_⟩
  rw [h.2.2.1]
  decide

/-- C10: if a filesystem call throws partway through the scan, the route
returns the 500 body with no count, while every stale file processed before
the failure stays deleted and the rest of the directory is untouched. -/
theorem cleanup_error_not_atomic (pre : List FileEntry) (bad : FileEntry)
    (post : List FileEntry) (now : Int)
    (hpre : ∀ f ∈ pre, f.statFails = false ∧ f.unlinkFails = false)
    (hbad : bad.statFails = true ∨ (isStale now bad = true ∧ bad.unlinkFails = true)) :
    (cleanupRoute (pre ++ bad :: post) now).1.status = 500
    ∧ (cleanupRoute (pre ++ bad :: post) now).1.error
        = some "Error cleaning up files"
    ∧ (cleanupRoute (pre ++ bad :: post) now).1.deletedCount = none
    ∧ (cleanupRoute (pre ++ bad :: post) now).1.message = none
    ∧ (cleanupRoute (pre ++ bad :: post) now).2
        = pre.filter (fun f => !isStale now f) ++ bad :: post := by
  have hscan := cleanupScan_failure now bad post hbad pre hpre
  have hroute : cleanupRoute (pre ++ bad :: post) now
      = ({ status := 500, error := some "Error cleaning up files" },
         pre.filter (fun f => !isStale now f) ++ bad :: post) := by
    unfold cleanupRoute
    rw [hscan]
  exact ⟨by rw [hroute], by rw [hroute], by rw [hroute], by rw [hroute],
    by rw [hroute]⟩

/-- Witness for C10: the stale file before the failing entry stays deleted
and no count is reported. -/
theorem cleanup_error_not_atomic_witness :
    (cleanupRoute [⟨"a.mp3", 0, false, false⟩, ⟨"b.mp3", 0, true, false⟩,
        ⟨"c.mp3", 0, false, false⟩] 7200000).1.status = 500
    ∧ (cleanupRoute [⟨"a.mp3", 0, false, false⟩, ⟨"b.mp3", 0, true, false⟩,
        ⟨"c.mp3", 0, false, false⟩] 7200000).1.deletedCount = none
    ∧ (cleanupRoute [⟨"a.mp3", 0, false, false⟩, ⟨"b.mp3", 0, true, false⟩,
        ⟨"c.mp3", 0, false, false⟩] 7200000).2
      = [⟨"b.mp3", 0, true, false⟩, ⟨"c.mp3", 0, false, false⟩] := by
  have h := cleanup_error_not_atomic [⟨"a.mp3", 0, false, false⟩]
    ⟨"b.mp3", 0, true, false⟩ [⟨"c.mp3", 0, false, false⟩] 7200000
    (by decide) (Or.inl rfl)
  exact ⟨h.1, h.2.2.1, h.2.2.2.2.trans (by decide)⟩

/-- C4 counterexample: two chat requests served concurrently, observing the
same `Date.now()` reading, produce the identical audio file name. -/
theorem audio_name_collision_same_millisecond :
    (chatHandler (.str "first prompt") .undefined
        ⟨.ok "a", .ok [1], .ok (), 1700000000000, "test"⟩).1.audioFileName
      = (chatHandler (.str "second prompt") .undefined
        ⟨.ok "b", .ok [2], .ok (), 1700000000000, "test"⟩).1.audioFileName
    ∧ (chatHandler (.str "first prompt") .undefined
        ⟨.ok "a", .ok [1], .ok (), 1700000000000, "test"⟩).1.audioFileName
      = some "response_1700000000000.mp3" := by decide

/-- C4 amended: names have the form `response_<epoch-millis>.mp3` with the
timestamp in decimal digits, and two requests whose `Date.now()` readings
differ get distinct names — but names of a fixed reading coincide, as the
counterexample shows. -/
theorem audio_name_format_and_time_injective :
    (∀ t : Nat, audioFileName t = "response_" ++ decimalRepr t ++ ".mp3"
      ∧ ∀ c ∈ (decimalRepr t).data, c.isDigit = true)
    ∧ ∀ t₁ t₂ : Nat, t₁ ≠ t₂ → audioFileName t₁ ≠ audioFileName t₂ :=
  ⟨fun t => ⟨rfl, decimalRepr_chars_digits t⟩,
   fun t₁ t₂ hne h => hne (audioFileName_inj t₁ t₂ h)⟩

/-- Witness for C4's amended statement at two adjacent milliseconds. -/
theorem audio_name_format_and_time_injective_witness :
    audioFileName 1700000000000 ≠ audioFileName 1700000000001
    ∧ Char.isDigit '1' = true :=
  ⟨audio_name_format_and_time_injective.2 1700000000000 1700000000001 (by decide),
   (audio_name_format_and_time_injective.1 1700000000000).2 '1' (by decide)⟩

/-- C6 counterexample: the prompt `"Say hello"` has 9 characters, so a
successful request reports `promptLength = 9`, not the claimed 10. -/
theorem chat_say_hello_promptLength_cex :
    (chatHandler (.str "Say hello") .undefined
        ⟨.ok "Hello!", .ok [1], .ok (), 42, "test"⟩).1.status = 200
    ∧ (chatHandler (.str "Say hello") .undefined
        ⟨.ok "Hello!", .ok [1], .ok (), 42, "test"⟩).1.promptLength = some 9
    ∧ some (9 : Nat) ≠ some 10
    ∧ ("Say hello" : String).length = 9 := by decide

/-- C6 amended: a successful `{"prompt":"Say hello"}` request returns 200,
`success:true`, the provider's non-empty text, an audio URL of the form
`/audio/response_<digits>.mp3` — and `promptLength = 9` (the prompt's
actual length), not 10. -/
theorem chat_say_hello_success (sm : JSValue) (env : ChatEnv) (text : String)
    (hc : env.chatResult = .ok text) (ht : text ≠ "")
    (bytes : List Nat) (hsp : env.speechResult = .ok bytes)
    (hw : env.writeResult = .ok ()) :
    (chatHandler (.str "Say hello") sm env).1.status = 200
    ∧ (chatHandler (.str "Say hello") sm env).1.success = some true
    ∧ (chatHandler (.str "Say hello") sm env).1.textResponse = some text
    ∧ text ≠ ""
    ∧ (chatHandler (.str "Say hello") sm env).1.audioUrl
        = some ("/audio/" ++ audioFileName env.now)
    ∧ audioFileName env.now = "response_" ++ decimalRepr env.now ++ ".mp3"
    ∧ (∀ c ∈ (decimalRepr env.now).data, c.isDigit = true)
    ∧ (chatHandler (.str "Say hello") sm env).1.promptLength = some 9 := by
  rw [chatHandler_success "Say hello" sm env (by decide) text hc bytes hsp hw]
  exact ⟨rfl, rfl, rfl, ht, rfl, rfl, decimalRepr_chars_digits env.now, rfl⟩

/-- Witness for C6's amended statement at a concrete provider reply. -/
theorem chat_say_hello_success_witness :
    (chatHandler (.str "Say hello") .undefined
        ⟨.ok "Hello there!", .ok [3], .ok (), 1730000000000, "production"⟩).1.status
      = 200
    ∧ (chatHandler (.str "Say hello") .undefined
        ⟨.ok "Hello there!", .ok [3], .ok (), 1730000000000, "production"⟩).1.promptLength
      = some 9
    ∧ (chatHandler (.str "Say hello") .undefined
        ⟨.ok "Hello there!", .ok [3], .ok (), 1730000000000, "production"⟩).1.audioUrl
      = some ("/audio/" ++ audioFileName 1730000000000) := by
  have h := chat_say_hello_success .undefined
    ⟨.ok "Hello there!", .ok [3], .ok (), 1730000000000, "production"⟩
    "Hello there!" rfl (by decide) [3] rfl rfl
  exact ⟨h.1, h.2.2.2.2.2.2.2, h.2.2.2.2.1⟩

/-- C5: the chat route's error taxonomy — quota → 429, auth → 401, any
other error (a failing `writeFileSync` included) → 500 `server_error` with
a generic message whose detail appears only outside production (namely in
development), and the unmatched-route handler answers 404 with the route
list. -/
theorem chat_error_taxonomy (msg nodeEnv : String) (code : Option String) :
    (chatCatch ⟨some "insufficient_quota", msg⟩ nodeEnv).status = 429
    ∧ (chatCatch ⟨some "insufficient_quota", msg⟩ nodeEnv).type = some "quota_error"
    ∧ (chatCatch ⟨some "invalid_api_key", msg⟩ nodeEnv).status = 401
    ∧ (chatCatch ⟨some "invalid_api_key", msg⟩ nodeEnv).type = some "auth_error"
    ∧ (code ≠ some "insufficient_quota" → code ≠ some "invalid_api_key" →
        (chatCatch ⟨code, msg⟩ nodeEnv).status = 500
        ∧ (chatCatch ⟨code, msg⟩ nodeEnv).error
            = some "Internal server error while processing your request"
        ∧ (chatCatch ⟨code, msg⟩ nodeEnv).details
            = if nodeEnv == "development" then some msg else none)
    ∧ (chatCatch ⟨none, msg⟩ "production").details = none
    ∧ (chatCatch ⟨none, msg⟩ "development").details = some msg
    ∧ (∀ (e : JSError) (sm : JSValue) (cr : String) (bytes : List Nat) (now : Nat),
        e.code = none →
        (chatHandler (.str "p") sm ⟨.ok cr, .ok bytes, .error e, now, "production"⟩).1.status
          = 500
        ∧ (chatHandler (.str "p") sm ⟨.ok cr, .ok bytes, .error e, now, "production"⟩).1.type
          = some "server_error")
    ∧ notFoundHandler.status = 404
    ∧ notFoundHandler.error = "Endpoint not found"
    ∧ notFoundHandler.availableEndpoints
        = ["GET /api/health", "POST /api/chat", "GET /audio/:filename",
           "DELETE /api/cleanup", "GET /api/config"] := by
  refine ⟨rfl, rfl, rfl, rfl, ?_, rfl, rfl, ?_, rfl, rfl, rfl⟩
  · intro h1 h2
    rw [chatCatch_other ⟨code, msg⟩ nodeEnv h1 h2]
    exact ⟨rfl, rfl, rfl⟩
  · intro e sm cr bytes now he
    have hcatch := chatCatch_other e "production"
      (by rw [he]; exact Option.noConfusion)
      (by rw [he]; exact Option.noConfusion)
    have hh := chatHandler_writeError "p" sm
      ⟨.ok cr, .ok bytes, .error e, now, "production"⟩ (by decide)
      cr rfl bytes rfl e rfl
    rw [hh, hcatch]
    exact ⟨rfl, rfl⟩

/-- Witness for C5: a code-less error in production gives a detail-free
500, and a failing write gives a 500 `server_error`. -/
theorem chat_error_taxonomy_witness :
    (chatCatch ⟨some "ETIMEDOUT", "socket hang up"⟩ "production").status = 500
    ∧ (chatCatch ⟨some "ETIMEDOUT", "socket hang up"⟩ "production").details = none
    ∧ (chatHandler (.str "p") .undefined
        ⟨.ok "t", .ok [1], .error ⟨none, "disk full"⟩, 9, "production"⟩).1.status
      = 500 := by
  have h := chat_error_taxonomy "socket hang up" "production" (some "ETIMEDOUT")
  have h5 := h.2.2.2.2.1 (by decide) (by decide)
  have h2 := chat_error_taxonomy "x" "production" none
  have h7 := h2.2.2.2.2.2.2.2.1 ⟨none, "disk full"⟩ .undefined "t" [1] 9 rfl
  exact ⟨h5.1, h5.2.2.trans (by decide), h7.1⟩

/-- C8: `GET /audio/:filename` answers 404 exactly when no file of that
name is in the audio directory; when the file is present it serves its
bytes with `Content-Type: audio/mpeg` and `Accept-Ranges: bytes`. -/
theorem serve_audio_spec (dir : AudioDir) (filename : String) :
    ((serveAudio dir filename).status = 404 ↔ lookupFile dir filename = none)
    ∧ ((serveAudio dir filename).status = 404 →
        (serveAudio dir filename).error = some "Audio file not found")
    ∧ ∀ bytes, lookupFile dir filename = some bytes →
        (serveAudio dir filename).status = 200
        ∧ (serveAudio dir filename).contentType = some "audio/mpeg"
        ∧ (serveAudio dir filename).acceptRanges = some "bytes"
        ∧ (serveAudio dir filename).body = some bytes := by
  rcases hl : lookupFile dir filename with _ | bytes
  · have hs : serveAudio dir filename
        = { status := 404, error := some "Audio file not found" } := by
      rw [serveAudio, hl]
    exact ⟨⟨fun _ => rfl, fun _ => by rw [hs]⟩, fun _ => by rw [hs],
      fun b hb => Option.noConfusion hb⟩
  · have hs : serveAudio dir filename
        = { status := 200, contentType := some "audio/mpeg",
            acceptRanges := some "bytes", body := some bytes } := by
      rw [serveAudio, hl]
    refine ⟨⟨fun h4 => ?_, fun h4 => Option.noConfusion h4⟩, fun h4 => ?_,
      fun b hb => ?_⟩
    · rw [hs] at h4
      simp at h4
    · rw [hs] at h4
      simp at h4
    · obtain rfl : bytes = b := Option.some.inj hb
      rw [hs]
      exact ⟨rfl, rfl, rfl, rfl⟩

/-- Witness for C8: a present file is served with the audio headers, an
absent name gets the 404 body. -/
theorem serve_audio_spec_witness :
    (serveAudio [("response_1.mp3", [7, 8])] "nope.mp3").status = 404
    ∧ (serveAudio [("response_1.mp3", [7, 8])] "nope.mp3").error
      = some "Audio file not found"
    ∧ (serveAudio [("response_1.mp3", [7, 8])] "response_1.mp3").contentType
      = some "audio/mpeg"
    ∧ (serveAudio [("response_1.mp3", [7, 8])] "response_1.mp3").acceptRanges
      = some "bytes"
    ∧ (serveAudio [("response_1.mp3", [7, 8])] "response_1.mp3").body
      = some [7, 8] := by
  have habs := serve_audio_spec [("response_1.mp3", [7, 8])] "nope.mp3"
  have hpres := (serve_audio_spec [("response_1.mp3", [7, 8])]
    "response_1.mp3").2.2 [7, 8] (by decide)
  have h404 : (serveAudio [("response_1.mp3", [7, 8])] "nope.mp3").status = 404 :=
    habs.1.mpr (by decide)
  exact ⟨h404, habs.2.1 h404, hpres.2.1, hpres.2.2.1, hpres.2.2.2⟩

end VibeCoder
